import Mathlib

/-!
Shallow embedding of the request-shaping logic of the Prueba-Tecnica-Plomolex
repository, a small HTTP proxy with two near-identical variants:
`src/gpt-proxy/app/main.py` (the "proxy" variant, with PDF support) and
`src/main.py` (the "root" variant).

Modelling conventions:
- bytes are `Nat` values below 256, byte strings are `List Nat`;
- Python strings are Lean `String`s; Python `str.strip()` is modelled over the
  ASCII and Latin-1 whitespace code points (9-13, 28-31, 32, 133, 160); the
  remaining Unicode space code points never occur in any claim;
- `base64.b64decode(s, validate=True)` is modelled byte-exactly after CPython:
  a non-ASCII string raises `ValueError` (not caught by the handler for
  `binascii.Error`, hence surfaced as a generic 500), an ASCII string that
  fails the `[A-Za-z0-9+/]*={0,2}` shape or the quad/padding requirements of
  `binascii.a2b_base64` raises `binascii.Error` (caught, 400);
- the external completion API and the filesystem are oracles passed as
  function arguments; the pypdf parser is abstracted as the list of per-page
  extracted texts it yields (`none` when parsing raises);
- `HTTPException(status, detail)` is the `HTTPErr` structure, and a handler
  is a function into `Except HTTPErr`.
-/

/-- One HTTP error response, as raised by `HTTPException(status_code, detail)`. -/
structure HTTPErr where
  status : Nat
  detail : String
deriving DecidableEq, Repr

/-- True exactly when a computation produced a value rather than an error. -/
def isOkE : Except ε α → Bool
  | Except.ok _ => true
  | Except.error _ => false

/-- Code points treated as whitespace by Python `str.strip()` / `str.isspace()`
(restricted to the ASCII and Latin-1 range; see the module header). -/
def pyIsSpace (c : Char) : Bool :=
  decide (c.toNat = 32 ∨ (9 ≤ c.toNat ∧ c.toNat ≤ 13) ∨
          (28 ≤ c.toNat ∧ c.toNat ≤ 31) ∨ c.toNat = 133 ∨ c.toNat = 160)

/-- Python `not s.strip()`: the string is empty or consists of whitespace only. -/
def isBlank (s : String) : Bool := s.toList.all pyIsSpace

/-- Strip leading whitespace, then trailing whitespace, of a character list. -/
def pyStripList (cs : List Char) : List Char :=
  ((cs.dropWhile pyIsSpace).reverse.dropWhile pyIsSpace).reverse

/-- Python `s.strip()` with no arguments. -/
def pyStrip (s : String) : String := String.mk (pyStripList s.toList)

/-- Python `s[:n]` on a string: the first `n` code points. -/
def pyTake (n : Nat) (s : String) : String := String.mk (s.toList.take n)

/-- Python `sep.join(parts)`. -/
def joinWith (sep : String) : List String → String
  | [] => ""
  | [x] => x
  | x :: rest => x ++ sep ++ joinWith sep rest

/-- Value of one character of the standard base64 alphabet, `none` outside it. -/
def b64val (c : Char) : Option Nat :=
  let n := c.toNat
  if 65 ≤ n ∧ n ≤ 90 then some (n - 65)
  else if 97 ≤ n ∧ n ≤ 122 then some (n - 71)
  else if 48 ≤ n ∧ n ≤ 57 then some (n + 4)
  else if n = 43 then some 62
  else if n = 47 then some 63
  else none

/-- Membership in the standard base64 alphabet (padding excluded). -/
def isB64Char (c : Char) : Bool := (b64val c).isSome

/-- Value of a base64 alphabet character, defaulting to 0 outside it. -/
def charVal (c : Char) : Nat := (b64val c).getD 0

/-- Byte output of `binascii.a2b_base64` on the data characters (padding
stripped): full quads yield three bytes, a trailing pair or triple (which the
caller has checked to be properly padded) yields one or two bytes. -/
def decodeQuads : List Char → List Nat
  | c1 :: c2 :: c3 :: c4 :: rest =>
    let v := charVal c1 * 262144 + charVal c2 * 4096 + charVal c3 * 64 + charVal c4
    v / 65536 :: v / 256 % 256 :: v % 256 :: decodeQuads rest
  | [c1, c2] => [charVal c1 * 4 + charVal c2 / 16]
  | [c1, c2, c3] => [charVal c1 * 4 + charVal c2 / 16,
                     charVal c2 % 16 * 16 + charVal c3 / 4]
  | _ => []

/-- The two exception classes `base64.b64decode(s, validate=True)` can raise:
`ValueError` for a non-ASCII argument, `binascii.Error` for invalid base64. -/
inductive B64Err where
  | nonAscii
  | badData
deriving DecidableEq, Repr

/-- CPython (3.11 and later) `base64.b64decode(s, validate=True)` on a `str`
argument. `_bytes_from_decode_data` first encodes to ASCII, raising
`ValueError` on any code point at or above 128; `binascii.a2b_base64` with
`strict_mode=True` then raises `binascii.Error` unless the input is a run of
alphabet characters followed only by trailing padding, with no leading
padding (padding with no data at all), no data-character count that is 1 more
than a multiple of 4, exactly two trailing `=` after a trailing data pair and
exactly one after a trailing data triple; after a complete final quad any
number of trailing `=` (including none) is accepted. -/
def b64decode (s : String) : Except B64Err (List Nat) :=
  let cs := s.toList
  if cs.any (fun c => 128 ≤ c.toNat) then Except.error B64Err.nonAscii
  else
    let p := (cs.reverse.takeWhile (fun c => c = '=')).length
    let data := (cs.reverse.dropWhile (fun c => c = '=')).reverse
    if ¬ data.all isB64Char then Except.error B64Err.badData
    else if data = [] ∧ 1 ≤ p then Except.error B64Err.badData
    else
      let r := data.length % 4
      if r = 1 then Except.error B64Err.badData
      else if r = 2 ∧ p ≠ 2 then Except.error B64Err.badData
      else if r = 3 ∧ p ≠ 1 then Except.error B64Err.badData
      else Except.ok (decodeQuads data)

/-- First `n` bytes of a byte string: Python `h[:n]` on `bytes`. -/
def bytesTake (n : Nat) (h : List Nat) : List Nat := h.take n

/-- Python `h[a:b]` on `bytes`. -/
def bytesSlice (a b : Nat) (h : List Nat) : List Nat := (h.drop a).take (b - a)

/-- The recognition tests of CPython `Lib/imghdr.py`, run in registration
order on the byte string passed as the `h` argument of `imghdr.what`. -/
def imghdrWhat (h : List Nat) : Option String :=
  if bytesSlice 6 10 h = [74, 70, 73, 70] ∨ bytesSlice 6 10 h = [69, 120, 105, 102] then
    some "jpeg"
  else if bytesTake 8 h = [137, 80, 78, 71, 13, 10, 26, 10] then some "png"
  else if bytesTake 6 h = [71, 73, 70, 56, 55, 97] ∨
          bytesTake 6 h = [71, 73, 70, 56, 57, 97] then some "gif"
  else if bytesTake 2 h = [77, 77] ∨ bytesTake 2 h = [73, 73] then some "tiff"
  else if bytesTake 2 h = [1, 218] then some "rgb"
  else if 3 ≤ h.length ∧ h.headI = 80 ∧ (h.getD 1 0 = 49 ∨ h.getD 1 0 = 52) ∧
          (h.getD 2 0 = 32 ∨ h.getD 2 0 = 9 ∨ h.getD 2 0 = 10 ∨ h.getD 2 0 = 13) then
    some "pbm"
  else if 3 ≤ h.length ∧ h.headI = 80 ∧ (h.getD 1 0 = 50 ∨ h.getD 1 0 = 53) ∧
          (h.getD 2 0 = 32 ∨ h.getD 2 0 = 9 ∨ h.getD 2 0 = 10 ∨ h.getD 2 0 = 13) then
    some "pgm"
  else if 3 ≤ h.length ∧ h.headI = 80 ∧ (h.getD 1 0 = 51 ∨ h.getD 1 0 = 54) ∧
          (h.getD 2 0 = 32 ∨ h.getD 2 0 = 9 ∨ h.getD 2 0 = 10 ∨ h.getD 2 0 = 13) then
    some "ppm"
  else if bytesTake 4 h = [89, 166, 106, 149] then some "rast"
  else if bytesTake 8 h = [35, 100, 101, 102, 105, 110, 101, 32] then some "xbm"
  else if bytesTake 2 h = [66, 77] then some "bmp"
  else if bytesTake 4 h = [82, 73, 70, 70] ∧ bytesSlice 8 12 h = [87, 69, 66, 80] then
    some "webp"
  else if bytesTake 4 h = [118, 47, 49, 1] then some "exr"
  else none

/-- One entry of the `images` list of an inference request. -/
structure ImageInput where
  image_b64 : String
  mime : Option String
deriving DecidableEq, Repr

/-- The JSON body of `POST /infer`. -/
structure InferenceIn where
  text : String
  images : Option (List ImageInput)
deriving DecidableEq, Repr

/-- One unit of multimodal content handed to the completion API. -/
inductive ContentBlock where
  | input_text (text : String)
  | input_image (image_url : String)
deriving DecidableEq, Repr

/-- The environment variables the service reads. -/
structure Env where
  openai_api_key : Option String
  model_var : Option String

/-- Python truthiness of `os.getenv(name)`: false for an unset variable and
for the empty string. -/
def envTruthy : Option String → Bool
  | none => false
  | some s => !(s == "")

/-- `MODEL = os.getenv("MODEL", "gpt-4.1-mini")`. -/
def modelName (env : Env) : String := env.model_var.getD "gpt-4.1-mini"

/-- `MAX_REQ_BYTES = 32 * 1024 * 1024`. -/
def MAX_REQ_BYTES : Nat := 32 * 1024 * 1024

/-- `MAX_PDF_TEXT_CHARS = 120_000`. -/
def MAX_PDF_TEXT_CHARS : Nat := 120000

/-- Proxy variant, invalid base64: `HTTPException(400, ...)`. -/
def err400b64 : HTTPErr := ⟨400, "Una de las imágenes no es base64 válida"⟩

/-- Proxy variant, cumulative size over the cap: `HTTPException(413, ...)`. -/
def err413data : HTTPErr := ⟨413, "Demasiados datos (~>32 MiB en total)"⟩

/-- Root variant, invalid base64 (note the trailing period in the detail). -/
def err400b64Main : HTTPErr := ⟨400, "Una de las imágenes no es base64 válida."⟩

/-- Root variant, cumulative size over the cap (trailing period). -/
def err413dataMain : HTTPErr := ⟨413, "Demasiados datos (~>32 MiB en total)."⟩

/-- The generic handler `except Exception as e` turning the `ValueError`
raised by `b64decode` on non-ASCII input into a 500 response. -/
def err500ascii : HTTPErr :=
  ⟨500, "Inference error: string argument should contain only ASCII characters"⟩

/-- `get_openai_client` without a configured key: `HTTPException(500, ...)`. -/
def err500key : HTTPErr := ⟨500, "OPENAI_API_KEY no está configurada en Cloud Run"⟩

/-- `summarize_pdf` on a non-PDF content type. -/
def err400pdfType : HTTPErr := ⟨400, "El archivo debe ser PDF (application/pdf)"⟩

/-- `summarize_pdf` on an upload above the byte cap. -/
def err413pdf : HTTPErr := ⟨413, "PDF demasiado grande (~>32 MiB)"⟩

/-- `summarize_pdf` when no text could be extracted. -/
def err400noText : HTTPErr :=
  ⟨400, "No pude extraer texto del PDF (puede ser escaneado / solo imágenes)."⟩

/-- Proxy variant skip test: `if not img.image_b64 or not img.image_b64.strip()`. -/
def skipImage (i : ImageInput) : Bool := (i.image_b64 == "") || isBlank i.image_b64

/-- Root variant skip test: `if not img.image_b64.strip()`. -/
def skipImageMain (i : ImageInput) : Bool := isBlank i.image_b64

/-- Decoded bytes of one image entry (empty on a decode failure; only used
where decoding is known to succeed). -/
def decodedBytes (i : ImageInput) : List Nat :=
  match b64decode i.image_b64 with
  | Except.ok bs => bs
  | Except.error _ => []

/-- Decoded byte length of one image entry. -/
def decodedLen (i : ImageInput) : Nat := (decodedBytes i).length

/-- Contribution of one entry to the running byte total: skipped entries
contribute nothing. -/
def imageContribution (i : ImageInput) : Nat :=
  if skipImage i then 0 else decodedLen i

/-- Cumulative decoded byte length of an image list. -/
def decodedTotal : List ImageInput → Nat
  | [] => 0
  | i :: rest => imageContribution i + decodedTotal rest

/-- `fmt = imghdr.what(None, h=img_bytes); f"image/{fmt}" if fmt else
"application/octet-stream"`. -/
def mimeFromBytes (bs : List Nat) : String :=
  match imghdrWhat bs with
  | some fmt => "image/" ++ fmt
  | none => "application/octet-stream"

/-- `if not img.mime:` — the supplied MIME field wins unless it is absent or
empty, in which case the decoded bytes are sniffed. -/
def resolveMime : Option String → List Nat → String
  | none, bs => mimeFromBytes bs
  | some m, bs => if m = "" then mimeFromBytes bs else m

/-- `data_url = f"data:{img.mime};base64,{img.image_b64}"`. -/
def dataUrl (mime b64 : String) : String := "data:" ++ mime ++ ";base64," ++ b64

/-- The image content block appended for one accepted entry. -/
def mkImageBlock (i : ImageInput) : ContentBlock :=
  ContentBlock.input_image (dataUrl (resolveMime i.mime (decodedBytes i)) i.image_b64)

/-- The image loop of the proxy variant `infer` (`src/gpt-proxy/app/main.py`,
lines 107-129): skip blank entries, decode with `validate=True` (400 on
`binascii.Error`, generic 500 on the `ValueError` raised for non-ASCII
input), accumulate the decoded length and fail with 413 as soon as the
running total exceeds `MAX_REQ_BYTES`, then append a data-URL image block
with the resolved MIME type. Returns the image blocks in input order
together with the final running total. -/
def processImages : List ImageInput → Nat → Except HTTPErr (List ContentBlock × Nat)
  | [], total => Except.ok ([], total)
  | img :: rest, total =>
    if skipImage img then processImages rest total
    else
      match b64decode img.image_b64 with
      | Except.error B64Err.nonAscii => Except.error err500ascii
      | Except.error B64Err.badData => Except.error err400b64
      | Except.ok bs =>
        if MAX_REQ_BYTES < total + bs.length then Except.error err413data
        else
          match processImages rest (total + bs.length) with
          | Except.error e => Except.error e
          | Except.ok (blocks, t) => Except.ok (mkImageBlock img :: blocks, t)

/-- The image loop of the root variant `infer` (`src/main.py`, lines 39-59):
identical to the proxy loop except for its skip test and the trailing
periods of its error details. -/
def processImagesMain : List ImageInput → Nat → Except HTTPErr (List ContentBlock × Nat)
  | [], total => Except.ok ([], total)
  | img :: rest, total =>
    if skipImageMain img then processImagesMain rest total
    else
      match b64decode img.image_b64 with
      | Except.error B64Err.nonAscii => Except.error err500ascii
      | Except.error B64Err.badData => Except.error err400b64Main
      | Except.ok bs =>
        if MAX_REQ_BYTES < total + bs.length then Except.error err413dataMain
        else
          match processImagesMain rest (total + bs.length) with
          | Except.error e => Except.error e
          | Except.ok (blocks, t) => Except.ok (mkImageBlock img :: blocks, t)

/-- Content assembly of the proxy variant: the leading text block followed by
the image blocks. `if payload.images:` treats an absent and an empty list
the same way. -/
def assembleContent (p : InferenceIn) : Except HTTPErr (List ContentBlock × Nat) :=
  match processImages (p.images.getD []) 0 with
  | Except.error e => Except.error e
  | Except.ok (blocks, t) => Except.ok (ContentBlock.input_text p.text :: blocks, t)

/-- Content assembly of the root variant. -/
def assembleContentMain (p : InferenceIn) : Except HTTPErr (List ContentBlock × Nat) :=
  match processImagesMain (p.images.getD []) 0 with
  | Except.error e => Except.error e
  | Except.ok (blocks, t) => Except.ok (ContentBlock.input_text p.text :: blocks, t)

/-- `POST /infer` of the proxy variant up to response serialization:
`get_openai_client` fails with 500 when no key is configured, then the
content is assembled and handed to the external completion API, modelled as
the oracle `completion`. -/
def infer (env : Env) (completion : List ContentBlock → String) (p : InferenceIn) :
    Except HTTPErr String :=
  if !envTruthy env.openai_api_key then Except.error err500key
  else
    match assembleContent p with
    | Except.error e => Except.error e
    | Except.ok (content, _) => Except.ok (completion content)

/-- Forget error details, keeping the HTTP status code. -/
def normStatus : Except HTTPErr (List ContentBlock × Nat) → Except Nat (List ContentBlock × Nat)
  | Except.error e => Except.error e.status
  | Except.ok v => Except.ok v

/-- The `GET /health` response of the proxy variant. -/
structure HealthOut where
  status : String
  model : String
  has_openai_key : Bool
  base_dir : String
  static_dir : String
  static_index_found : Bool
  root_index_found : Bool
deriving DecidableEq, Repr

/-- `os.path.join` for the absolute, slash-free-tail paths used here. -/
def pathJoin (a b : String) : String := a ++ "/" ++ b

/-- `GET /health` of the proxy variant: always a 200 payload; the credential
flag is `bool(os.getenv("OPENAI_API_KEY"))`; the filesystem is the oracle
`fsHas`. -/
def health (env : Env) (baseDir : String) (fsHas : String → Bool) : HealthOut :=
  ⟨"ok", modelName env, envTruthy env.openai_api_key, baseDir, pathJoin baseDir "static",
   fsHas (pathJoin (pathJoin baseDir "static") "index.html"),
   fsHas (pathJoin baseDir "index.html")⟩

/-- Module-level configuration check of the root variant (`src/main.py`,
lines 8-9): importing the module raises `RuntimeError` when the key is
unset or empty, so the application never starts. -/
def mainModuleInit (env : Env) : Except String Unit :=
  if !envTruthy env.openai_api_key then
    Except.error "OPENAI_API_KEY no está configurada en el entorno."
  else Except.ok ()

/-- The `GET /health` response of the root variant: status and model only,
no credential flag. -/
structure HealthOutMain where
  status : String
  model : String
deriving DecidableEq, Repr

/-- `GET /health` of the root variant (only reachable after `mainModuleInit`
succeeded). -/
def healthMain (env : Env) : HealthOutMain := ⟨"ok", modelName env⟩

/-- `"\n\n".join(parts).strip()` over the pages that yielded non-blank text:
the per-page loop of `read_pdf_text` keeps the original page text (not the
stripped one) whenever `t.strip()` is non-empty. -/
def joinPages (pages : List String) : String :=
  pyStrip (joinWith "\n\n" (pages.filter (fun t => !isBlank t)))

/-- The fixed truncation notice appended by `read_pdf_text`. -/
def TRUNCATION_NOTICE : String := "\n\n[...texto recortado por tamaño...]"

/-- `read_pdf_text` (`src/gpt-proxy/app/main.py`, lines 51-66). The pypdf
parser is abstracted as the list of per-page extracted texts (with
`extract_text() or ""` already applied); `none` stands for the parser
raising, which the surrounding `except Exception` normalizes to `""`. -/
def read_pdf_text : Option (List String) → String
  | none => ""
  | some pages =>
    let text := joinPages pages
    if text = "" then ""
    else if MAX_PDF_TEXT_CHARS < text.length then
      pyTake MAX_PDF_TEXT_CHARS text ++ TRUNCATION_NOTICE
    else text

/-- An uploaded file as `summarize_pdf` observes it: declared content type,
byte length of the body, and the abstracted parse result of those bytes. -/
structure UploadFile where
  content_type : String
  size : Nat
  parsedPages : Option (List String)

/-- The summarization prompt built around the extracted text. -/
def promptFor (text : String) : String :=
  "Resume el siguiente documento en EXACTAMENTE 1 párrafo, en español, " ++
  "claro y directo. No uses viñetas ni listas.\n\nDOCUMENTO:\n" ++ text

/-- `POST /summarize_pdf` (`src/gpt-proxy/app/main.py`, lines 145-182) up to
response serialization: content-type gate, 413 on an oversized body, 400
when extraction yields nothing, 500 from `get_openai_client` without a key,
then the completion oracle on the prompt, with `.strip()` on its output. -/
def summarize_pdf (env : Env) (completion : String → String) (f : UploadFile) :
    Except HTTPErr String :=
  if ¬ (f.content_type = "application/pdf" ∨ f.content_type = "application/octet-stream") then
    Except.error err400pdfType
  else if MAX_REQ_BYTES < f.size then Except.error err413pdf
  else
    let text := read_pdf_text f.parsedPages
    if text = "" then Except.error err400noText
    else if !envTruthy env.openai_api_key then Except.error err500key
    else Except.ok (pyStrip (completion (promptFor text)))

/-! ## Helper lemmas -/

lemma skipImage_eq_main (i : ImageInput) : skipImage i = skipImageMain i := by
  unfold skipImage skipImageMain
  cases hb : i.image_b64 == "" with
  | false => simp
  | true =>
    have hbe : i.image_b64 = "" := eq_of_beq hb
    have : isBlank i.image_b64 = true := by rw [hbe]; decide
    simp [this]

lemma decodedTotal_append (l1 l2 : List ImageInput) :
    decodedTotal (l1 ++ l2) = decodedTotal l1 + decodedTotal l2 := by
  induction l1 with
  | nil => simp [decodedTotal]
  | cons i rest ih => simp [decodedTotal, ih, Nat.add_assoc]

lemma decodedTotal_replicate (n : Nat) (i : ImageInput) :
    decodedTotal (List.replicate n i) = n * imageContribution i := by
  induction n with
  | zero => simp [decodedTotal]
  | succ m ih =>
    rw [List.replicate_succ]
    show imageContribution i + decodedTotal (List.replicate m i) = (m + 1) * imageContribution i
    rw [ih, Nat.succ_mul, Nat.add_comm]

lemma decodedLen_of_ok {i : ImageInput} {bs : List Nat}
    (h : b64decode i.image_b64 = Except.ok bs) : decodedLen i = bs.length := by
  simp [decodedLen, decodedBytes, h]

lemma processImages_ok (imgs : List ImageInput) (total : Nat)
    (hval : ∀ i ∈ imgs, skipImage i = false → isOkE (b64decode i.image_b64) = true)
    (hsz : total + decodedTotal imgs ≤ MAX_REQ_BYTES) :
    processImages imgs total =
      Except.ok ((imgs.filter (fun i => !skipImage i)).map mkImageBlock,
                 total + decodedTotal imgs) := by
  induction imgs generalizing total with
  | nil => simp [processImages, decodedTotal]
  | cons img rest ih =>
    have hvrest : ∀ i ∈ rest, skipImage i = false → isOkE (b64decode i.image_b64) = true :=
      fun i hi => hval i (List.mem_cons_of_mem _ hi)
    cases hskip : skipImage img with
    | true =>
      have hc : imageContribution img = 0 := by simp [imageContribution, hskip]
      have hdt : decodedTotal (img :: rest) = decodedTotal rest := by
        simp [decodedTotal, hc]
      rw [hdt] at hsz ⊢
      simp only [processImages, hskip, if_true, List.filter_cons, hskip]
      simpa using ih total hvrest hsz
    | false =>
      have hd := hval img (List.mem_cons_self _ _) hskip
      cases hdec : b64decode img.image_b64 with
      | error e => rw [hdec] at hd; simp [isOkE] at hd
      | ok bs =>
        have hc : imageContribution img = bs.length := by
          simp [imageContribution, hskip, decodedLen_of_ok hdec]
        have hdt : decodedTotal (img :: rest) = bs.length + decodedTotal rest := by
          simp [decodedTotal, hc]
        rw [hdt] at hsz
        have hle : ¬ (MAX_REQ_BYTES < total + bs.length) := by omega
        have hrec := ih (total + bs.length) hvrest (by omega)
        simp only [processImages, hskip, Bool.false_eq_true, if_false, hdec, hle, hrec]
        simp [List.filter_cons, hskip, hdt, Nat.add_assoc]

/-- Claim C1: for every inference request whose image list has cumulative
decoded byte length at most 32 MiB and whose every non-skipped entry is
valid strict base64, content assembly succeeds and returns the text block
holding the request text verbatim followed by exactly one image block per
non-blank image entry, in input order, together with the cumulative decoded
byte total. -/
theorem claim_C1_assembly_ok (text : String) (imgs : List ImageInput)
    (hval : ∀ i ∈ imgs, skipImage i = false → isOkE (b64decode i.image_b64) = true)
    (hsz : decodedTotal imgs ≤ MAX_REQ_BYTES) :
    assembleContent ⟨text, some imgs⟩ =
      Except.ok (ContentBlock.input_text text ::
        (imgs.filter (fun i => !skipImage i)).map mkImageBlock, decodedTotal imgs) := by
  have h := processImages_ok imgs 0 hval (by omega)
  simp only [assembleContent, Option.getD_some, h, Nat.zero_add]

/-- Witness for C1 at a concrete request: a text payload, one valid image
without MIME, one whitespace-only entry (skipped), and one valid image with
an explicit MIME type. -/
theorem claim_C1_witness :
    assembleContent ⟨"hola",
        some [⟨"aGk=", none⟩, ⟨"   ", none⟩, ⟨"iVBORw0KGgo=", some "image/png"⟩]⟩ =
      Except.ok (ContentBlock.input_text "hola" ::
        ([⟨"aGk=", none⟩, ⟨"   ", none⟩,
          (⟨"iVBORw0KGgo=", some "image/png"⟩ : ImageInput)].filter
            (fun i => !skipImage i)).map mkImageBlock,
        decodedTotal [⟨"aGk=", none⟩, ⟨"   ", none⟩,
          ⟨"iVBORw0KGgo=", some "image/png"⟩]) :=
  claim_C1_assembly_ok "hola" _ (by decide) (by decide)

/-- Claim C9: an image list whose cumulative decoded byte length is exactly
32 MiB (33,554,432 bytes) passes the size check — the rejection uses a
strict inequality, so the ceiling itself is admissible and content assembly
succeeds. -/
theorem claim_C9_boundary (text : String) (imgs : List ImageInput)
    (hval : ∀ i ∈ imgs, skipImage i = false → isOkE (b64decode i.image_b64) = true)
    (hexact : decodedTotal imgs = 33554432) :
    isOkE (assembleContent ⟨text, some imgs⟩) = true := by
  have hsz : (0 : Nat) + decodedTotal imgs ≤ MAX_REQ_BYTES := by
    rw [hexact]; decide
  have h := processImages_ok imgs 0 hval hsz
  simp [assembleContent, h, isOkE]

/-- A 4-character base64 image entry decoding to three zero bytes, used to
build concrete requests of arbitrary decoded size. -/
def aImg : ImageInput := ⟨"AAAA", none⟩

/-- A padded base64 image entry decoding to two zero bytes. -/
def padImg : ImageInput := ⟨"AAA=", none⟩

/-- Witness for C9: 11,184,810 three-byte images plus one two-byte image
total exactly 33,554,432 decoded bytes and are accepted. -/
theorem claim_C9_witness :
    isOkE (assembleContent ⟨"hola", some (List.replicate 11184810 aImg ++ [padImg])⟩) = true :=
  claim_C9_boundary "hola" _
    (by
      intro i hi hsk
      rcases List.mem_append.mp hi with hrep | hone
      · rw [List.eq_of_mem_replicate hrep]; decide
      · rw [List.mem_singleton.mp hone]; decide)
    (by rw [decodedTotal_append, decodedTotal_replicate]; decide)

lemma processImages_over (pre : List ImageInput) (img : ImageInput) (post : List ImageInput)
    (total : Nat)
    (hval : ∀ i ∈ pre, skipImage i = false → isOkE (b64decode i.image_b64) = true)
    (hpre : total + decodedTotal pre ≤ MAX_REQ_BYTES)
    (hskip : skipImage img = false)
    (hok : isOkE (b64decode img.image_b64) = true)
    (hover : MAX_REQ_BYTES < total + decodedTotal pre + decodedLen img) :
    processImages (pre ++ img :: post) total = Except.error err413data := by
  induction pre generalizing total with
  | nil =>
    cases hdec : b64decode img.image_b64 with
    | error e => rw [hdec] at hok; simp [isOkE] at hok
    | ok bs =>
      have hlen : decodedLen img = bs.length := decodedLen_of_ok hdec
      simp only [decodedTotal, Nat.add_zero, hlen] at hover
      have hlt : MAX_REQ_BYTES < total + bs.length := by omega
      simp [processImages, hskip, hdec, hlt]
  | cons i pre ih =>
    have hvrest : ∀ j ∈ pre, skipImage j = false → isOkE (b64decode j.image_b64) = true :=
      fun j hj => hval j (List.mem_cons_of_mem _ hj)
    have hdt : decodedTotal (i :: pre) = imageContribution i + decodedTotal pre := rfl
    cases hskip2 : skipImage i with
    | true =>
      have hc : imageContribution i = 0 := by simp [imageContribution, hskip2]
      rw [hdt, hc] at hpre hover
      simp only [List.cons_append, processImages, hskip2, if_true]
      exact ih total hvrest (by omega) (by omega)
    | false =>
      have hd := hval i (List.mem_cons_self _ _) hskip2
      cases hdec2 : b64decode i.image_b64 with
      | error e => rw [hdec2] at hd; simp [isOkE] at hd
      | ok cs =>
        have hc : imageContribution i = cs.length := by
          simp [imageContribution, hskip2, decodedLen_of_ok hdec2]
        rw [hdt, hc] at hpre hover
        have hle : ¬ (MAX_REQ_BYTES < total + cs.length) := by omega
        have hrec := ih (total + cs.length) hvrest (by omega) (by omega)
        simp [processImages, hskip2, hdec2, hle, hrec]

/-- Claim C2: when the running decoded total first exceeds 32 MiB at some
image entry (all non-skipped entries up to and including it being valid
base64 within the cap before it), `infer` fails with the 413
payload-too-large error — for an arbitrary tail after the crossing entry
(those entries are never decoded) and for an arbitrary completion oracle
(no external call is made). -/
theorem claim_C2_over_limit (env : Env) (completion : List ContentBlock → String)
    (text : String) (pre : List ImageInput) (img : ImageInput) (post : List ImageInput)
    (hkey : envTruthy env.openai_api_key = true)
    (hval : ∀ i ∈ pre, skipImage i = false → isOkE (b64decode i.image_b64) = true)
    (hpre : decodedTotal pre ≤ MAX_REQ_BYTES)
    (hskip : skipImage img = false)
    (hok : isOkE (b64decode img.image_b64) = true)
    (hover : MAX_REQ_BYTES < decodedTotal pre + decodedLen img) :
    infer env completion ⟨text, some (pre ++ img :: post)⟩ = Except.error err413data := by
  have h := processImages_over pre img post 0 hval (by omega) hskip hok (by omega)
  simp [infer, hkey, assembleContent, h]

/-- Witness for C2: a request of 11,184,811 three-byte images crosses the
32 MiB ceiling at its last entry (33,554,433 bytes) and is rejected with
the 413 error. -/
theorem claim_C2_witness :
    infer ⟨some "k", none⟩ (fun _ => "")
        ⟨"hola", some (List.replicate 11184810 aImg ++ aImg :: [])⟩ =
      Except.error err413data :=
  claim_C2_over_limit ⟨some "k", none⟩ (fun _ => "") "hola" _ aImg []
    (by decide)
    (by intro i hi hsk; rw [List.eq_of_mem_replicate hi]; decide)
    (by rw [decodedTotal_replicate]; decide)
    (by decide) (by decide)
    (by rw [decodedTotal_replicate]; decide)

lemma processImages_bad (pre : List ImageInput) (img : ImageInput) (post : List ImageInput)
    (total : Nat)
    (hval : ∀ i ∈ pre, skipImage i = false → isOkE (b64decode i.image_b64) = true)
    (hpre : total + decodedTotal pre ≤ MAX_REQ_BYTES)
    (hskip : skipImage img = false)
    (hbad : b64decode img.image_b64 = Except.error B64Err.badData) :
    processImages (pre ++ img :: post) total = Except.error err400b64 := by
  induction pre generalizing total with
  | nil => simp [processImages, hskip, hbad]
  | cons i pre ih =>
    have hvrest : ∀ j ∈ pre, skipImage j = false → isOkE (b64decode j.image_b64) = true :=
      fun j hj => hval j (List.mem_cons_of_mem _ hj)
    have hdt : decodedTotal (i :: pre) = imageContribution i + decodedTotal pre := rfl
    cases hskip2 : skipImage i with
    | true =>
      have hc : imageContribution i = 0 := by simp [imageContribution, hskip2]
      rw [hdt, hc] at hpre
      simp only [List.cons_append, processImages, hskip2, if_true]
      exact ih total hvrest (by omega)
    | false =>
      have hd := hval i (List.mem_cons_self _ _) hskip2
      cases hdec2 : b64decode i.image_b64 with
      | error e => rw [hdec2] at hd; simp [isOkE] at hd
      | ok cs =>
        have hc : imageContribution i = cs.length := by
          simp [imageContribution, hskip2, decodedLen_of_ok hdec2]
        rw [hdt, hc] at hpre
        have hle : ¬ (MAX_REQ_BYTES < total + cs.length) := by omega
        have hrec := ih (total + cs.length) hvrest (by omega)
        simp [processImages, hskip2, hdec2, hle, hrec]

/-- Counterexample to C3 as stated: the entry `"é"` is non-blank and is not
valid strict base64, yet `infer` answers 500, not 400 — CPython
`b64decode` raises `ValueError` (not `binascii.Error`) for non-ASCII input,
and the handler catches only `binascii.Error`, so the generic
`except Exception` turns it into a 500 response. -/
theorem claim_C3_counterexample :
    isBlank "é" = false ∧ isOkE (b64decode "é") = false ∧
    infer ⟨some "k", none⟩ (fun _ => "") ⟨"hola", some [⟨"é", none⟩]⟩ =
      Except.error err500ascii ∧
    err500ascii.status = 500 :=
  ⟨by decide, by decide, rfl, rfl⟩

/-- Claim C3 as amended: for an image entry whose payload is non-blank ASCII
text that is not valid strict base64, provided the non-skipped entries
before it are valid base64 whose cumulative decoded length stays within the
32 MiB cap, `infer` fails with the 400 client-input error — for an
arbitrary tail and an arbitrary completion oracle (no external call is
made). -/
theorem claim_C3_amended (env : Env) (completion : List ContentBlock → String)
    (text : String) (pre : List ImageInput) (img : ImageInput) (post : List ImageInput)
    (hkey : envTruthy env.openai_api_key = true)
    (hval : ∀ i ∈ pre, skipImage i = false → isOkE (b64decode i.image_b64) = true)
    (hpre : decodedTotal pre ≤ MAX_REQ_BYTES)
    (hskip : skipImage img = false)
    (hbad : b64decode img.image_b64 = Except.error B64Err.badData) :
    infer env completion ⟨text, some (pre ++ img :: post)⟩ = Except.error err400b64 := by
  have h := processImages_bad pre img post 0 hval (by omega) hskip hbad
  simp [infer, hkey, assembleContent, h]

/-- Witness for the amended C3 at the concrete invalid payload from the
spec example: a string of `%` characters. -/
theorem claim_C3_witness :
    infer ⟨some "k", none⟩ (fun _ => "")
        ⟨"hola", some ([] ++ (⟨"%%%%", none⟩ : ImageInput) :: [])⟩ =
      Except.error err400b64 :=
  claim_C3_amended ⟨some "k", none⟩ (fun _ => "") "hola" [] ⟨"%%%%", none⟩ []
    (by decide) (by simp) (by decide) (by decide) rfl

/-- Claim C8: for an accepted image entry whose `mime` field is absent, the
appended content block is a data URL whose MIME type is resolved by
sniffing the decoded bytes with the `imghdr` magic-header tests, and when
no format is identified the resolved type is `application/octet-stream`;
the data URL embeds the original base64 string. -/
theorem claim_C8_mime (env : Env) (completion : List ContentBlock → String)
    (text : String) (b64 : String) (bs : List Nat)
    (hkey : envTruthy env.openai_api_key = true)
    (hskip : skipImage ⟨b64, none⟩ = false)
    (hdec : b64decode b64 = Except.ok bs)
    (hsz : bs.length ≤ MAX_REQ_BYTES) :
    infer env completion ⟨text, some [⟨b64, none⟩]⟩ =
      Except.ok (completion [ContentBlock.input_text text,
        ContentBlock.input_image (dataUrl (mimeFromBytes bs) b64)]) ∧
    (imghdrWhat bs = none → mimeFromBytes bs = "application/octet-stream") := by
  constructor
  · have hval : ∀ i ∈ [(⟨b64, none⟩ : ImageInput)],
        skipImage i = false → isOkE (b64decode i.image_b64) = true := by
      intro i hi hsk
      rw [List.mem_singleton.mp hi]
      show isOkE (b64decode b64) = true
      rw [hdec]; rfl
    have hsz2 : (0 : Nat) + decodedTotal [(⟨b64, none⟩ : ImageInput)] ≤ MAX_REQ_BYTES := by
      have hc : imageContribution ⟨b64, none⟩ = bs.length := by
        simp only [imageContribution, hskip, if_false, Bool.false_eq_true]
        show (decodedBytes ⟨b64, none⟩).length = bs.length
        simp [decodedBytes, hdec]
      simp [decodedTotal, hc, hsz]
    have h := processImages_ok [⟨b64, none⟩] 0 hval hsz2
    have hblk : mkImageBlock ⟨b64, none⟩ =
        ContentBlock.input_image (dataUrl (mimeFromBytes bs) b64) := by
      simp [mkImageBlock, resolveMime, decodedBytes, hdec]
    simp [infer, hkey, assembleContent, h, hskip, hblk]
  · intro hnone
    simp [mimeFromBytes, hnone]

/-- Witness for C8: the base64 string `"AAAA"` decodes to three zero bytes,
which no `imghdr` test recognizes, so the block falls back to
`application/octet-stream`. -/
theorem claim_C8_witness :
    infer ⟨some "k", none⟩ (fun _ => "ok") ⟨"hola", some [⟨"AAAA", none⟩]⟩ =
      Except.ok ((fun _ => "ok") [ContentBlock.input_text "hola",
        ContentBlock.input_image (dataUrl (mimeFromBytes [0, 0, 0]) "AAAA")]) ∧
    (imghdrWhat [0, 0, 0] = none → mimeFromBytes [0, 0, 0] = "application/octet-stream") :=
  claim_C8_mime ⟨some "k", none⟩ (fun _ => "ok") "hola" "AAAA" [0, 0, 0]
    (by decide) (by decide) rfl (by decide)

lemma processImages_equiv (imgs : List ImageInput) (total : Nat) :
    normStatus (processImagesMain imgs total) = normStatus (processImages imgs total) := by
  induction imgs generalizing total with
  | nil => rfl
  | cons img rest ih =>
    have hskipeq := skipImage_eq_main img
    cases hskip : skipImageMain img with
    | true =>
      have h1 : skipImage img = true := by rw [hskipeq, hskip]
      simp only [processImages, processImagesMain, hskip, h1, if_true]
      exact ih total
    | false =>
      have h1 : skipImage img = false := by rw [hskipeq, hskip]
      cases hdec : b64decode img.image_b64 with
      | error e =>
        cases e <;>
          simp [processImages, processImagesMain, hskip, h1, hdec, normStatus,
                err400b64, err400b64Main, err413data, err413dataMain, err500ascii]
      | ok bs =>
        by_cases hlt : MAX_REQ_BYTES < total + bs.length
        · simp [processImages, processImagesMain, hskip, h1, hdec, hlt, normStatus,
                err413data, err413dataMain]
        · have hih := ih (total + bs.length)
          simp only [processImages, processImagesMain, hskip, h1, hdec, hlt, if_false,
                     Bool.false_eq_true]
          cases hm : processImagesMain rest (total + bs.length) with
          | error e1 =>
            cases hp : processImages rest (total + bs.length) with
            | error e2 =>
              rw [hm, hp] at hih
              simp only [normStatus] at hih ⊢
              exact hih
            | ok v => rw [hm, hp] at hih; simp [normStatus] at hih
          | ok v =>
            cases hp : processImages rest (total + bs.length) with
            | error e2 => rw [hm, hp] at hih; simp [normStatus] at hih
            | ok w =>
              rw [hm, hp] at hih
              simp only [normStatus, Except.ok.injEq] at hih
              obtain ⟨vb, vt⟩ := v
              obtain ⟨wb, wt⟩ := w
              obtain ⟨hb2, ht2⟩ := Prod.mk.injEq .. ▸ hih
              subst hb2; subst ht2
              rfl

/-- Claim C10: the two variants of `infer` compute the same result up to the
external call — identical content sequences and decoded-byte totals on
success and the same error status (400 for invalid base64, 413 for an
over-limit total, 500 for a non-ASCII payload) on failure; only the detail
strings differ (the root variant ends them with a period). -/
theorem claim_C10_equiv (p : InferenceIn) :
    normStatus (assembleContentMain p) = normStatus (assembleContent p) := by
  have h := processImages_equiv (p.images.getD []) 0
  cases hm : processImagesMain (p.images.getD []) 0 with
  | error e1 =>
    cases hp : processImages (p.images.getD []) 0 with
    | error e2 =>
      rw [hm, hp] at h
      simp only [normStatus, Except.error.injEq] at h
      simp [assembleContentMain, assembleContent, hm, hp, normStatus, h]
    | ok v => rw [hm, hp] at h; simp [normStatus] at h
  | ok v =>
    cases hp : processImages (p.images.getD []) 0 with
    | error e2 => rw [hm, hp] at h; simp [normStatus] at h
    | ok w =>
      rw [hm, hp] at h
      simp only [normStatus, Except.ok.injEq] at h
      obtain ⟨vb, vt⟩ := v
      obtain ⟨wb, wt⟩ := w
      obtain ⟨hb2, ht2⟩ := Prod.mk.injEq .. ▸ h
      subst hb2; subst ht2
      simp [assembleContentMain, assembleContent, hm, hp, normStatus]

/-- Claim C4: when the joined-and-trimmed extracted text is strictly longer
than 120,000 characters, `read_pdf_text` returns exactly its first 120,000
characters followed by the fixed truncation notice. -/
theorem claim_C4_truncation (pages : List String)
    (hlong : MAX_PDF_TEXT_CHARS < (joinPages pages).length) :
    read_pdf_text (some pages) =
      pyTake MAX_PDF_TEXT_CHARS (joinPages pages) ++ TRUNCATION_NOTICE := by
  have hne : ¬ (joinPages pages = "") := by
    intro h
    rw [h] at hlong
    exact absurd hlong (by decide)
  simp only [read_pdf_text]
  rw [if_neg hne, if_pos hlong]

/-- Claim C5: when the joined-and-trimmed extracted text is shorter than
120,000 characters, `read_pdf_text` returns it unchanged — the blank pages
contribute nothing, the non-blank page texts are joined by a blank line and
stripped, and no truncation notice is appended. -/
theorem claim_C5_under_limit (pages : List String)
    (hshort : (joinPages pages).length < MAX_PDF_TEXT_CHARS) :
    read_pdf_text (some pages) = joinPages pages := by
  by_cases h : joinPages pages = ""
  · simp only [read_pdf_text]
    rw [if_pos h, h]
  · have hnl : ¬ (MAX_PDF_TEXT_CHARS < (joinPages pages).length) := by omega
    simp only [read_pdf_text]
    rw [if_neg h, if_neg hnl]

lemma dropWhile_replicate_neg {p : Char → Bool} {c : Char} (hc : p c = false) (n : Nat) :
    List.dropWhile p (List.replicate n c) = List.replicate n c := by
  cases n with
  | zero => rfl
  | succ m => rw [List.replicate_succ, List.dropWhile_cons, hc]; simp

lemma pyStrip_replicate {c : Char} (hc : pyIsSpace c = false) (n : Nat) :
    pyStrip (String.mk (List.replicate n c)) = String.mk (List.replicate n c) := by
  show String.mk ((((List.replicate n c).dropWhile pyIsSpace).reverse.dropWhile
        pyIsSpace).reverse) = String.mk (List.replicate n c)
  rw [dropWhile_replicate_neg hc, List.reverse_replicate, dropWhile_replicate_neg hc,
      List.reverse_replicate]

lemma isBlank_replicate_false {c : Char} (hc : pyIsSpace c = false) (n : Nat) :
    isBlank (String.mk (List.replicate (n + 1) c)) = false := by
  show (List.replicate (n + 1) c).all pyIsSpace = false
  rw [List.replicate_succ, List.all_cons, hc]
  rfl

/-- A single page whose extracted text is 120,001 copies of the letter `a`. -/
def bigPage : String := String.mk (List.replicate (120000 + 1) 'a')

lemma joinPages_bigPage : joinPages [bigPage] = bigPage := by
  have hb : isBlank bigPage = false := isBlank_replicate_false (by decide) 120000
  show pyStrip (joinWith "\n\n" (List.filter (fun t => !isBlank t) [bigPage])) = bigPage
  rw [List.filter_cons]
  simp only [hb, Bool.not_false, if_true, List.filter_nil]
  show pyStrip bigPage = bigPage
  exact pyStrip_replicate (by decide) (120000 + 1)

/-- Witness for C4 at a concrete over-long PDF text. -/
theorem claim_C4_witness :
    read_pdf_text (some [bigPage]) =
      pyTake MAX_PDF_TEXT_CHARS (joinPages [bigPage]) ++ TRUNCATION_NOTICE :=
  claim_C4_truncation [bigPage] (by
    rw [joinPages_bigPage]
    show MAX_PDF_TEXT_CHARS < (List.replicate (120000 + 1) 'a').length
    rw [List.length_replicate]
    decide)

/-- Witness for C5 at a concrete short PDF: two text pages around a
whitespace-only page and an empty page. -/
theorem claim_C5_witness :
    read_pdf_text (some ["hola", "   ", "", "mundo"]) =
      joinPages ["hola", "   ", "", "mundo"] :=
  claim_C5_under_limit ["hola", "   ", "", "mundo"] (by decide)

/-- Counterexample to C6 as stated: an uploaded file of accepted content type
from which no text can be extracted, but whose body is one byte above the
32 MiB cap, is answered with 413, not 400 — the size check precedes
extraction. -/
theorem claim_C6_counterexample :
    (⟨"application/pdf", 33554433, none⟩ : UploadFile).parsedPages = none ∧
    read_pdf_text none = "" ∧
    summarize_pdf ⟨none, none⟩ (fun _ => "") ⟨"application/pdf", 33554433, none⟩ =
      Except.error err413pdf ∧
    err413pdf.status = 413 :=
  ⟨rfl, rfl, rfl, rfl⟩

/-- Claim C6 as amended: for an uploaded file of accepted content type whose
body is within the 32 MiB cap and from which no text can be extracted
(including the parser raising, which `read_pdf_text` normalizes to the
empty extraction result), `summarize_pdf` answers with the 400 client-input
error — never a server error, whatever the credential state and the
completion oracle. -/
theorem claim_C6_amended (env : Env) (completion : String → String) (f : UploadFile)
    (hct : f.content_type = "application/pdf" ∨ f.content_type = "application/octet-stream")
    (hsz : f.size ≤ MAX_REQ_BYTES)
    (hno : read_pdf_text f.parsedPages = "") :
    summarize_pdf env completion f = Except.error err400noText := by
  have h2 : ¬ (MAX_REQ_BYTES < f.size) := by omega
  simp only [summarize_pdf]
  rw [if_neg (not_not_intro hct), if_neg h2, if_pos hno]

/-- Witness for the amended C6: a small PDF upload whose parse raises is
rejected with the 400 no-text error even with no credential configured. -/
theorem claim_C6_witness :
    summarize_pdf ⟨none, none⟩ (fun _ => "") ⟨"application/pdf", 7, none⟩ =
      Except.error err400noText :=
  claim_C6_amended ⟨none, none⟩ (fun _ => "") ⟨"application/pdf", 7, none⟩
    (Or.inl rfl) (by decide) rfl

/-- Counterexample to C7 as stated: in the root variant, an environment with
no configured credential makes the module-level check raise `RuntimeError`
at import, so its health endpoint cannot answer at all (and its response
model carries no credential flag) — the claim holds only for the proxy
variant. -/
theorem claim_C7_counterexample :
    envTruthy (⟨none, none⟩ : Env).openai_api_key = false ∧
    mainModuleInit ⟨none, none⟩ =
      Except.error "OPENAI_API_KEY no está configurada en el entorno." :=
  ⟨rfl, rfl⟩

/-- Claim C7 as amended: in the proxy variant, `GET /health` in an
environment without a configured credential returns status ok with a false
credential flag and never an error, for every base directory and
filesystem state. -/
theorem claim_C7_amended (env : Env) (baseDir : String) (fsHas : String → Bool)
    (hkey : envTruthy env.openai_api_key = false) :
    (health env baseDir fsHas).status = "ok" ∧
    (health env baseDir fsHas).has_openai_key = false := by
  constructor
  · rfl
  · show envTruthy env.openai_api_key = false
    exact hkey

/-- Witness for the amended C7 at a concrete empty environment. -/
theorem claim_C7_witness :
    (health ⟨none, none⟩ "/app" (fun _ => false)).status = "ok" ∧
    (health ⟨none, none⟩ "/app" (fun _ => false)).has_openai_key = false :=
  claim_C7_amended ⟨none, none⟩ "/app" (fun _ => false) rfl
